import Mathlib

/-!
# Verification of the jewelry-order workflow engine

Shallow embedding of the order lifecycle code of `order/views.py` and
`order/serializers.py` (Django REST framework application).  The order store
(database table, kept in primary-key order) is a `List Order`; the craftsman
directory (`BusinessPartner` table) is a `List BusinessPartner`; each HTTP
handler becomes a pure function from the store to `Except ApiError (List Order)`
— an error result models a 4xx response, which performs no write.
-/

/-- A `BusinessPartner` row (the Craftsman Directory entry).  The model class
itself is not in scope, but every field here is read by the views or
serializers under verification (`bp_code`, `business_name`, `role`, `id`). -/
structure BusinessPartner where
  id : Nat
  bp_code : String
  business_name : String
  full_name : String
  role : String
deriving Repr, DecidableEq

/-- An `Order` row, with the fields the workflow handlers read or write.
`craftsman`, `rejected_by`, `approved_by_key_user`, `verified_by_admin` and
`rejected_by_admin` are nullable foreign keys, held as the referenced id.
Dates are day numbers (`Int`). -/
structure Order where
  id : Nat
  order_no : String
  status : String
  craftsman : Option Nat
  rejected_by : Option Nat
  due_date : Option Int
  order_date : Option Int
  bp_code : Option Nat
  key_user_approval_notes : String
  approved_by_key_user : Option Nat
  admin_approval_notes : String
  verified_by_admin : Option Nat
  admin_rejection_notes : String
  rejected_by_admin : Option Nat
deriving Repr, DecidableEq

/-- Error responses of the handlers.  `notFound` is a 404, `validationError` a
serializer 400, `invalidTransition` the 400 returned when a status guard
fails. -/
inductive ApiError where
  | notFound (msg : String)
  | invalidTransition (msg : String)
  | validationError (msg : String)
deriving Repr, DecidableEq

def ApiError.isInvalidTransition : ApiError → Bool
  | .invalidTransition _ => true
  | _ => false

deriving instance DecidableEq for Except

/-! ## Store primitives (Django ORM calls) -/

/-- `get_object_or_404(Order, id=oid)` / `Order.objects.get(id=oid)`. -/
def getOrderById (store : List Order) (oid : Nat) : Option Order :=
  store.find? (fun o => o.id == oid)

/-- `Order.objects.get(order_no=no)`. -/
def getOrderByNo (store : List Order) (no : String) : Option Order :=
  store.find? (fun o => o.order_no == no)

/-- `order.save()`: write back the row with the matching primary key. -/
def saveOrder (store : List Order) (o : Order) : List Order :=
  store.map (fun x => if x.id == o.id then o else x)

/-- `order.delete()`. -/
def deleteOrder (store : List Order) (oid : Nat) : List Order :=
  store.filter (fun x => !(x.id == oid))

/-- Fresh primary key for an inserted row (autoincrement). -/
def nextId (store : List Order) : Nat :=
  store.foldr (fun o m => max o.id m) 0 + 1

/-! ## Decimal strings

Embeddings of int(s) and of two-digit zero-padded formatting from the numbering code, built on the Mathlib
base-10 `Nat.digits`.  `digitsRev` is a fuel-based (kernel-reducible) copy of
`Nat.digits 10`. -/

def digitsRevAux : Nat → Nat → List Nat
  | 0, _ => []
  | _ + 1, 0 => []
  | fuel + 1, n + 1 => (n + 1) % 10 :: digitsRevAux fuel ((n + 1) / 10)

/-- Little-endian base-10 digits of `n` (`[]` for `0`). -/
def digitsRev (n : Nat) : List Nat := digitsRevAux n n

def digitChar (d : Nat) : Char := Char.ofNat (48 + d)

/-- Most-significant-first decimal digit characters of `n` (`"0"` for `0`). -/
def digitChars (n : Nat) : List Char :=
  if n = 0 then ['0'] else ((digitsRev n).map digitChar).reverse

/-- `str(n)` for a natural number. -/
def renderNat (n : Nat) : String := String.mk (digitChars n)

/-- Two-digit zero-padded decimal formatting: left-padded with `0` to at least two digits. -/
def pad2 (n : Nat) : String :=
  if n < 10 then String.mk ('0' :: digitChars n) else String.mk (digitChars n)

/-- The int conversion applied to the order-number strings: defined (as the decimal value) when
`s` is a non-empty string of digits, a `ValueError` (`none`) otherwise. -/
def parseNat? (s : String) : Option Nat :=
  if s.data ≠ [] ∧ s.data.all Char.isDigit then
    some (Nat.ofDigits 10 ((s.data.map (fun c => c.toNat - 48)).reverse))
  else none

/-! ## Order creation (`OrderSerializer` + `OrderCreateView.post`) -/

/-- Raw request payload for creation.  For `bp_code`, `none` means the key is
absent from the payload, `some none` an explicit JSON `null`, `some (some c)`
a slug value `c` (the field is declared `required=False, allow_null=True`).
`order_date` is whatever the payload carries under that key. -/
structure CreateInput where
  bp_code : Option (Option String)
  due_date : Option Int
  order_date : Option Int
deriving Repr, DecidableEq

/-- `SlugRelatedField` deserialization of `bp_code`: an absent key stays
absent, an explicit null stays null, a slug must resolve in the directory. -/
def resolveBp (dir : List BusinessPartner) :
    Option (Option String) → Except ApiError (Option (Option Nat))
  | none => .ok none
  | some none => .ok (some none)
  | some (some code) =>
    match dir.find? (fun b => b.bp_code == code) with
    | some b => .ok (some (some b.id))
    | none => .error (.validationError "Object with bp_code does not exist.")

/-- `validate_due_date`: rejects any value less than or equal to today. -/
def checkDueDate (today : Int) : Option Int → Except ApiError Unit
  | none => .ok ()
  | some d =>
    if d ≤ today then
      .error (.validationError
        "Due date must be tomorrow or later. Cannot be today or in the past.")
    else .ok ()

/-- Validated data of the serializer.  `order_date` is a read-only field
(`SerializerMethodField`, also listed in `read_only_fields`), so field
deserialization never copies it from the payload: the slot is always `none`
here, whatever the request contained. -/
structure ValidatedData where
  bp_code : Option (Option Nat)
  due_date : Option Int
  order_date : Option Int
deriving Repr, DecidableEq

/-- `OrderSerializer.validate`: raises when `order_date` appears in the
validated data (unreachable, since the field is read-only). -/
def serializerValidate (vd : ValidatedData) : Except ApiError ValidatedData :=
  if vd.order_date.isSome then
    .error (.validationError "Order date is auto-set to the current date")
  else .ok vd

/-- Numbering in `OrderSerializer.create`: successor of the parsed number of the last row
(field `order_no` parsed as an integer), the literal string 001 when the table is empty,
`count + 1` (two-digit formatted) when the parse raises. -/
def nextOrderNo (store : List Order) : String :=
  match store.getLast? with
  | none => "001"
  | some last =>
    match parseNat? last.order_no with
    | some n => pad2 (n + 1)
    | none => pad2 (store.length + 1)

/-- `OrderCreateView.post`: field deserialization (`bp_code` resolution,
`validate_due_date`), object-level `validate`, status set to pending, then
`create` (presence check on `bp_code`, numbering, insert) and the `post_save`
signal `set_order_date` stamping `order_date` with the current date. -/
def createOrder (dir : List BusinessPartner) (store : List Order) (today : Int)
    (raw : CreateInput) : Except ApiError (List Order) := do
  let bp ← resolveBp dir raw.bp_code
  checkDueDate today raw.due_date
  let vd ← serializerValidate { bp_code := bp, due_date := raw.due_date, order_date := none }
  match vd.bp_code with
  | none => throw (.validationError "bp_code: This field is required.")
  | some bpRef =>
    let o : Order :=
      { id := nextId store
        order_no := nextOrderNo store
        status := "pending"
        craftsman := none
        rejected_by := none
        due_date := vd.due_date
        order_date := some today
        bp_code := bpRef
        key_user_approval_notes := ""
        approved_by_key_user := none
        admin_approval_notes := ""
        verified_by_admin := none
        admin_rejection_notes := ""
        rejected_by_admin := none }
    return store ++ [o]

/-! ## Workflow transitions (`order/views.py`) -/

/-- `KeyUserApprovalView.post`: only a pending order may be approved; moves it
to `in-process`, recording notes and the approver. -/
def keyUserApprove (store : List Order) (oid : Nat) (notes : String)
    (userId : Nat) : Except ApiError (List Order) :=
  match getOrderById store oid with
  | none => .error (.notFound "No Order matches the given query.")
  | some o =>
    if o.status ≠ "pending" then
      .error (.invalidTransition "Only pending orders can be approved by key user.")
    else
      .ok (saveOrder store
        { o with status := "in-process", key_user_approval_notes := notes,
                 approved_by_key_user := some userId })

/-- `KeyUserApprovalView.delete`: only a pending order may be reject-deleted;
removes the row. -/
def keyUserRejectDelete (store : List Order) (oid : Nat) :
    Except ApiError (List Order) :=
  match getOrderById store oid with
  | none => .error (.notFound "No Order matches the given query.")
  | some o =>
    if o.status ≠ "pending" then
      .error (.invalidTransition "Only pending orders can be rejected by Key User.")
    else
      .ok (deleteOrder store o.id)

/-- `AdminVerificationView.post`: only an in-process order may be verified;
moves it to `verified`. -/
def adminVerify (store : List Order) (oid : Nat) (notes : String)
    (userId : Nat) : Except ApiError (List Order) :=
  match getOrderById store oid with
  | none => .error (.notFound "No Order matches the given query.")
  | some o =>
    if o.status ≠ "in-process" then
      .error (.invalidTransition "Only in-process orders can be verified by admin.")
    else
      .ok (saveOrder store
        { o with status := "verified", admin_approval_notes := notes,
                 verified_by_admin := some userId })

/-- `AdminVerificationView.delete`: only an in-process order may be rejected
by admin; moves it to the terminal `admin-rejected`. -/
def adminReject (store : List Order) (oid : Nat) (notes : String)
    (userId : Nat) : Except ApiError (List Order) :=
  match getOrderById store oid with
  | none => .error (.notFound "No Order matches the given query.")
  | some o =>
    if o.status ≠ "in-process" then
      .error (.invalidTransition "Only in-process orders can be rejected by admin.")
    else
      .ok (saveOrder store
        { o with status := "admin-rejected", admin_rejection_notes := notes,
                 rejected_by_admin := some userId })

/-- `AssignOrdersToCraftsman.post`: looks up the craftsman by code, business
name and role `CRAFTSMAN`, the order by id, sets `craftsman`, `status =
"assigned"` and, when supplied, `due_date`.  No status guard. -/
def assignOrder (dir : List BusinessPartner) (store : List Order) (oid : Nat)
    (code name : String) (due : Option Int) : Except ApiError (List Order) :=
  match dir.find? (fun b => b.bp_code == code && b.business_name == name
      && b.role == "CRAFTSMAN") with
  | none => .error (.notFound "No BusinessPartner matches the given query.")
  | some c =>
    match getOrderById store oid with
    | none => .error (.notFound "No Order matches the given query.")
    | some o =>
      .ok (saveOrder store
        { o with craftsman := some c.id, status := "assigned",
                 due_date := match due with | some d => some d | none => o.due_date })

inductive CraftsmanAction where
  | accept
  | reject
deriving Repr, DecidableEq

/-- `craftsman__id` values of every row sharing the order number with status
`rejected` (a values_list of craftsman ids); a null craftsman
contributes `none` (SQL `NULL`). -/
def rejectedCraftsmanIds (store : List Order) (no : String) : List (Option Nat) :=
  (store.filter (fun o => o.order_no == no && o.status == "rejected")).map
    (fun o => o.craftsman)

/-- SQL three-valued `id NOT IN (subquery)` as generated by
`exclude(id__in=...)`: the row is kept only when the predicate is TRUE, i.e.
`x` differs from every listed value *and* the list contains no `NULL` (a
`NULL` makes the comparison UNKNOWN, so the row is dropped). -/
def sqlNotIn (x : Nat) (ids : List (Option Nat)) : Bool :=
  ids.all fun c =>
    match c with
    | some v => v != x
    | none => false

/-- `CraftsmanOrderResponse.get_next_available_craftsman`: first directory
entry with role `CRAFTSMAN` not excluded by the rejected-rows subquery. -/
def get_next_available_craftsman (dir : List BusinessPartner)
    (store : List Order) (order : Order) : Option BusinessPartner :=
  let rejected_by := rejectedCraftsmanIds store order.order_no
  (dir.filter (fun b => b.role == "CRAFTSMAN")).find?
    (fun b => sqlNotIn b.id rejected_by)

/-- `CraftsmanOrderResponse.post`: looks the order up by `order_no`, requires
status `assigned`.  `accept` moves it to `in-process`.  `reject` stamps
`rejected_by`, nulls `craftsman`, saves with status `rejected`, then attempts
reassignment.  The view never consults the requesting user: `actorId` is
carried to model the authenticated caller but is not read. -/
def craftsmanRespond (dir : List BusinessPartner) (store : List Order)
    (actorId : Nat) (no : String) (action : CraftsmanAction) :
    Except ApiError (List Order) :=
  match getOrderByNo store no with
  | none => .error (.notFound "Order not found")
  | some o =>
    if o.status ≠ "assigned" then
      .error (.invalidTransition "Order is already in assigned state")
    else
      match action with
      | .accept => .ok (saveOrder store { o with status := "in-process" })
      | .reject =>
        let o1 : Order :=
          { o with status := "rejected", rejected_by := o.craftsman,
                   craftsman := none }
        let store1 := saveOrder store o1
        match get_next_available_craftsman dir store1 o1 with
        | some c =>
          .ok (saveOrder store1
            { o1 with craftsman := some c.id, status := "assigned" })
        | none => .ok store1

/-- `ApproveOrderView.post` (craftsman marks an order complete): requires
status `in-process`, sets `awaiting-approval`. -/
def markComplete (store : List Order) (no : String) :
    Except ApiError (List Order) :=
  match getOrderByNo store no with
  | none => .error (.notFound "Order not found")
  | some o =>
    if o.status ≠ "in-process" then
      .error (.invalidTransition "Order is not in-process")
    else
      .ok (saveOrder store { o with status := "awaiting-approval" })

/-- `CompletedOrdersView.post` (admin approves completion): requires status
`awaiting-approval`, sets `complete`. -/
def approveCompletion (store : List Order) (no : String) :
    Except ApiError (List Order) :=
  match getOrderByNo store no with
  | none => .error (.notFound "Order not found")
  | some o =>
    if o.status ≠ "awaiting-approval" then
      .error (.invalidTransition "Order is not awaiting approval")
    else
      .ok (saveOrder store { o with status := "complete" })

/-! ## Derived notions used by the statements -/

/-- A sequence of creation requests applied in order; a request whose
validation fails leaves the store as it was (no row inserted). -/
def createMany (dir : List BusinessPartner) (today : Int) (store : List Order) :
    List CreateInput → List Order
  | [] => store
  | i :: rest =>
    match createOrder dir store today i with
    | .ok s' => createMany dir today s' rest
    | .error _ => createMany dir today store rest

/-- Numeric value of the `order_no` of an order (0 when it does not parse). -/
def orderNoVal (o : Order) : Nat := (parseNat? o.order_no).getD 0

/-- Store invariant maintained by creation: every `order_no` parses, and the
numeric values strictly increase in row (creation) order. -/
def GoodStore (store : List Order) : Prop :=
  (∀ o ∈ store, (parseNat? o.order_no).isSome = true) ∧
  (store.map orderNoVal).Pairwise (· < ·)

/-! ## Concrete fixtures for the scenario claims -/

def dirC1 : BusinessPartner :=
  { id := 1, bp_code := "C1", business_name := "One", full_name := "C One",
    role := "CRAFTSMAN" }

def dirC2 : BusinessPartner :=
  { id := 2, bp_code := "C2", business_name := "Two", full_name := "C Two",
    role := "CRAFTSMAN" }

def blankOrder : Order :=
  { id := 1, order_no := "001", status := "pending", craftsman := none,
    rejected_by := none, due_date := none, order_date := some 0,
    bp_code := none, key_user_approval_notes := "",
    approved_by_key_user := none, admin_approval_notes := "",
    verified_by_admin := none, admin_rejection_notes := "",
    rejected_by_admin := none }

def c1AssignedOrder : Order :=
  { blankOrder with status := "assigned", craftsman := some 1 }

def c1RejectedOrder : Order :=
  { c1AssignedOrder with
    status := "rejected"
    craftsman := none
    rejected_by := some 1 }

def c3Input : CreateInput :=
  { bp_code := some none, due_date := some 5, order_date := none }

def c3Created : Order := { blankOrder with due_date := some 5 }

def c3Approved : Order :=
  { c3Created with
    status := "in-process"
    key_user_approval_notes := "ok"
    approved_by_key_user := some 10 }

def c3Verified : Order :=
  { c3Approved with
    status := "verified"
    admin_approval_notes := "ok"
    verified_by_admin := some 20 }

def c3Assigned : Order :=
  { c3Verified with status := "assigned", craftsman := some 1 }

def c3Rejected : Order :=
  { c3Assigned with
    status := "rejected"
    craftsman := none
    rejected_by := some 1 }

def c4AssignedOrder : Order :=
  { blankOrder with status := "assigned", craftsman := some 1 }

def c5AssignedOrder : Order :=
  { blankOrder with status := "assigned", craftsman := some 1 }

def c5WorkOrder : Order :=
  { blankOrder with status := "in-process", craftsman := some 1 }

def c2TerminalOrder : Order :=
  { blankOrder with order_no := "77", status := "complete" }

def c7Input : CreateInput :=
  { bp_code := some none, due_date := none, order_date := none }

def c7FirstOrder : Order := blankOrder

/-- Does the result model a serializer ValidationError response? -/
def isValidationFailure : Except ApiError (List Order) → Bool
  | .error (.validationError _) => true
  | _ => false

def c6Input : CreateInput :=
  { bp_code := some none, due_date := none, order_date := none }

def c6CreatedOrder : Order := blankOrder

def c8Input : CreateInput :=
  { bp_code := some none, due_date := some 0, order_date := none }

def c9Input : CreateInput :=
  { bp_code := some none, due_date := none, order_date := some 99 }

def c9CreatedOrder : Order := { blankOrder with order_date := some 7 }

def c10Input : CreateInput :=
  { bp_code := some none, due_date := none, order_date := none }

def c10CreatedOrder : Order := blankOrder

/-! # Theorems -/

/-! ## Decimal rendering / parsing facts -/

theorem digitsRevAux_eq_digits (fuel : Nat) : ∀ n : Nat, n ≤ fuel →
    digitsRevAux fuel n = Nat.digits 10 n := by
  induction fuel with
  | zero =>
    intro n hn
    interval_cases n
    simp [digitsRevAux]
  | succ f ih =>
    intro n hn
    match n with
    | 0 => simp [digitsRevAux]
    | k + 1 =>
      have hdiv : (k + 1) / 10 < k + 1 := Nat.div_lt_self (Nat.succ_pos k) (by norm_num)
      rw [digitsRevAux, ih ((k + 1) / 10) (by omega),
        Nat.digits_def' (b := 10) (by norm_num) (Nat.succ_pos k)]

theorem digitsRev_eq_digits (n : Nat) : digitsRev n = Nat.digits 10 n :=
  digitsRevAux_eq_digits n n (Nat.le_refl n)

theorem digitChar_isDigit {d : Nat} (h : d < 10) : (digitChar d).isDigit = true := by
  interval_cases d <;> decide

theorem digitChar_val {d : Nat} (h : d < 10) : (digitChar d).toNat - 48 = d := by
  interval_cases d <;> decide

theorem digitChars_spec (n : Nat) :
    digitChars n ≠ [] ∧ (digitChars n).all Char.isDigit = true ∧
    Nat.ofDigits 10 (((digitChars n).map (fun c => c.toNat - 48)).reverse) = n := by
  rcases Nat.eq_zero_or_pos n with h0 | hpos
  · subst h0; refine ⟨by decide, by decide, by decide⟩
  have hne : n ≠ 0 := Nat.pos_iff_ne_zero.mp hpos
  have hdig : ∀ d ∈ Nat.digits 10 n, d < 10 := fun d hd =>
    Nat.digits_lt_base (by norm_num) hd
  have hchars : digitChars n = ((Nat.digits 10 n).map digitChar).reverse := by
    rw [digitChars, if_neg hne, digitsRev_eq_digits]
  have hnil : Nat.digits 10 n ≠ [] := Nat.digits_ne_nil_iff_ne_zero.mpr hne
  refine ⟨?_, ?_, ?_⟩
  · rw [hchars]
    simp only [ne_eq, List.reverse_eq_nil_iff, List.map_eq_nil_iff]
    exact hnil
  · rw [hchars]
    simp only [List.all_eq_true, List.mem_reverse, List.mem_map]
    rintro c ⟨d, hd, rfl⟩
    exact digitChar_isDigit (hdig d hd)
  · rw [hchars]
    rw [List.map_reverse, List.reverse_reverse, List.map_map]
    have hmap : (Nat.digits 10 n).map ((fun c => c.toNat - 48) ∘ digitChar)
        = Nat.digits 10 n := by
      calc (Nat.digits 10 n).map ((fun c => c.toNat - 48) ∘ digitChar)
          = (Nat.digits 10 n).map id :=
            List.map_congr_left (fun d hd => by simpa using digitChar_val (hdig d hd))
        _ = Nat.digits 10 n := List.map_id _
    rw [hmap, Nat.ofDigits_digits]

theorem parseNat?_stringMk_digitChars (n : Nat) :
    parseNat? (String.mk (digitChars n)) = some n := by
  obtain ⟨h1, h2, h3⟩ := digitChars_spec n
  rw [parseNat?]
  rw [if_pos ⟨h1, h2⟩]
  rw [h3]

theorem parseNat?_pad2 (n : Nat) : parseNat? (pad2 n) = some n := by
  obtain ⟨h1, h2, h3⟩ := digitChars_spec n
  by_cases h : n < 10
  · rw [pad2, if_pos h, parseNat?]
    rw [if_pos ⟨by simp, by simpa using h2⟩]
    simp only [List.map_cons, List.reverse_cons]
    rw [Nat.ofDigits_append]
    simp only [Nat.ofDigits_cons, Nat.ofDigits_nil]
    have : ('0'.toNat - 48) = 0 := by decide
    rw [this, h3]
    simp
  · rw [pad2, if_neg h]
    exact parseNat?_stringMk_digitChars n

/-! ## Creation invariants -/

theorem createOrder_ok_shape (dir : List BusinessPartner) (store : List Order)
    (today : Int) (raw : CreateInput) (s' : List Order)
    (h : createOrder dir store today raw = Except.ok s') :
    ∃ o : Order, s' = store ++ [o] ∧ o.order_no = nextOrderNo store := by
  unfold createOrder at h
  cases hbp : resolveBp dir raw.bp_code with
  | error e => rw [hbp] at h; simp [Bind.bind, Except.bind] at h
  | ok bp =>
    rw [hbp] at h
    cases hdd : checkDueDate today raw.due_date with
    | error e =>
      rw [hdd] at h
      simp [Bind.bind, Except.bind] at h
    | ok u =>
      rw [hdd] at h
      simp only [Bind.bind, Except.bind, serializerValidate, Option.isSome_none,
        Bool.false_eq_true, if_false] at h
      cases bp with
      | none => simp [throw, throwThe, MonadExcept.throw, MonadExceptOf.throw, Except.error] at h
      | some bpRef =>
        simp only [pure, Except.pure, Except.ok.injEq] at h
        exact ⟨_, h.symm, rfl⟩

theorem nextOrderNo_gt (store : List Order) (hg : GoodStore store) :
    ∃ m : Nat, parseNat? (nextOrderNo store) = some m ∧
      ∀ o ∈ store, orderNoVal o < m := by
  cases hl : store.getLast? with
  | none =>
    rw [List.getLast?_eq_none_iff] at hl
    subst hl
    exact ⟨1, by decide, by simp⟩
  | some last =>
    have hmem : last ∈ store := List.mem_of_getLast?_eq_some hl
    obtain ⟨k, hk⟩ := Option.isSome_iff_exists.mp (hg.1 last hmem)
    have hval : orderNoVal last = k := by rw [orderNoVal, hk]; rfl
    refine ⟨k + 1, ?_, ?_⟩
    · simp only [nextOrderNo, hl, hk]
      exact parseNat?_pad2 (k + 1)
    · obtain ⟨ys, hys⟩ := List.getLast?_eq_some_iff.mp hl
      intro o ho
      have hpa := hg.2
      rw [hys, List.map_append, List.pairwise_append] at hpa
      rw [hys] at ho
      rcases List.mem_append.mp ho with hy | hy
      · have := hpa.2.2 (orderNoVal o) (List.mem_map_of_mem _ hy)
          (orderNoVal last) (by simp)
        omega
      · have : o = last := by simpa using hy
        subst this
        omega

theorem goodStore_createOrder (dir : List BusinessPartner) (store : List Order)
    (today : Int) (raw : CreateInput) (s' : List Order) (hg : GoodStore store)
    (h : createOrder dir store today raw = Except.ok s') : GoodStore s' := by
  obtain ⟨o, rfl, hono⟩ := createOrder_ok_shape dir store today raw s' h
  obtain ⟨m, hm, hlt⟩ := nextOrderNo_gt store hg
  have hoval : orderNoVal o = m := by rw [orderNoVal, hono, hm]; rfl
  constructor
  · intro x hx
    rcases List.mem_append.mp hx with hx | hx
    · exact hg.1 x hx
    · have : x = o := by simpa using hx
      subst this
      rw [hono, hm]
      rfl
  · rw [List.map_append, List.pairwise_append]
    refine ⟨hg.2, by simp, ?_⟩
    intro a ha b hb
    obtain ⟨x, hx, rfl⟩ := List.mem_map.mp ha
    have : b = orderNoVal o := by simpa using hb
    subst this
    rw [hoval]
    exact hlt x hx

theorem goodStore_createMany (dir : List BusinessPartner) (today : Int)
    (inps : List CreateInput) :
    ∀ store : List Order, GoodStore store →
      GoodStore (createMany dir today store inps) := by
  induction inps with
  | nil => intro store hg; exact hg
  | cons i rest ih =>
    intro store hg
    rw [createMany]
    cases hc : createOrder dir store today i with
    | ok s' => exact ih s' (goodStore_createOrder dir store today i s' hg hc)
    | error e => exact ih store hg

/-! ## Claim theorems -/

/-- C1 (code bug): after a craftsman rejection the automatic reassignment
never selects anyone.  With directory entries C1 and C2 (both role CRAFTSMAN)
and the order assigned to C1, the rejection by C1 leaves the order `rejected`
with no craftsman.  The rejecting identity was nulled out of the `craftsman`
column before the exclusion subquery reads it, so the subquery yields a SQL
NULL and `NOT IN` excludes every candidate: the reassignment to the first
non-rejecting craftsman (here C2) never happens. -/
theorem c1_craftsman_rejection_never_reassigns :
    craftsmanRespond [dirC1, dirC2] [c1AssignedOrder] 1 "001"
        CraftsmanAction.reject = Except.ok [c1RejectedOrder] ∧
    c1RejectedOrder.status = "rejected" ∧
    c1RejectedOrder.craftsman = none ∧
    get_next_available_craftsman [dirC1, dirC2] [c1RejectedOrder]
        c1RejectedOrder = none := by decide

/-- C3 (code bug): the golden-path scenario succeeds exactly as specified up
to the craftsman rejection (pending, in-process, verified, assigned), but the
rejection by C1 does not reassign the order to C2: the run ends with the
order `rejected` and craftsman cleared, so the accept / mark-complete /
approve steps of the scenario cannot proceed. -/
theorem c3_scenario_breaks_at_reassignment :
    createOrder [dirC1, dirC2] [] 0 c3Input = Except.ok [c3Created] ∧
    c3Created.status = "pending" ∧ c3Created.order_no = "001" ∧
    keyUserApprove [c3Created] 1 "ok" 10 = Except.ok [c3Approved] ∧
    c3Approved.status = "in-process" ∧
    adminVerify [c3Approved] 1 "ok" 20 = Except.ok [c3Verified] ∧
    c3Verified.status = "verified" ∧
    assignOrder [dirC1, dirC2] [c3Verified] 1 "C1" "One" none =
      Except.ok [c3Assigned] ∧
    c3Assigned.status = "assigned" ∧ c3Assigned.craftsman = some dirC1.id ∧
    craftsmanRespond [dirC1, dirC2] [c3Assigned] 1 "001"
      CraftsmanAction.reject = Except.ok [c3Rejected] ∧
    c3Rejected.status = "rejected" ∧ c3Rejected.craftsman = none ∧
    ¬(c3Rejected.status = "assigned" ∧ c3Rejected.craftsman = some dirC2.id) := by
  decide

/-- C4 counterexample: an accept request by actor 99, who is not the assigned
craftsman (id 1), is not rejected: it succeeds and moves the order to
in-process, mutating the store. -/
theorem c4_foreign_actor_accept_succeeds :
    c4AssignedOrder.craftsman = some 1 ∧ (99 : Nat) ≠ 1 ∧
    craftsmanRespond [dirC1] [c4AssignedOrder] 99 "001" CraftsmanAction.accept =
      Except.ok [{ c4AssignedOrder with status := "in-process" }] := by decide

/-- C4 amended: the craftsman accept/reject endpoint performs no
actor-identity check at all — its outcome is the same for every requesting
actor, so a request by an actor other than the assigned craftsman is
processed exactly like one by the assigned craftsman. -/
theorem c4_actor_identity_never_checked (dir : List BusinessPartner)
    (store : List Order) (a b : Nat) (no : String) (act : CraftsmanAction) :
    craftsmanRespond dir store a no act = craftsmanRespond dir store b no act :=
  rfl

/-- C5 counterexample: marking complete an order whose status is `assigned`
fails with the invalid-transition error, though the claim says the operation
succeeds there. -/
theorem c5_assigned_mark_complete_rejected :
    c5AssignedOrder.status = "assigned" ∧
    markComplete [c5AssignedOrder] "001" =
      Except.error (ApiError.invalidTransition "Order is not in-process") := by
  decide

/-- C9 (code bug): a creation request that supplies an order_date value
succeeds anyway — the read-only field is dropped before object-level
validation, so the explicit rejection in the validate method is unreachable;
the created order gets order_date stamped with the current date (7), not the
supplied value (99). -/
theorem c9_supplied_order_date_ignored :
    c9Input.order_date = some 99 ∧
    createOrder [] [] 7 c9Input = Except.ok [c9CreatedOrder] ∧
    c9CreatedOrder.order_date = some 7 := by decide

/-- C10 counterexample: a creation request whose payload carries an explicit
null bp_code passes the presence check and succeeds with no bp_code
reference, so creation does not require a resolvable bp_code. -/
theorem c10_explicit_null_bp_code_accepted :
    c10Input.bp_code = some none ∧
    createOrder [] [] 0 c10Input = Except.ok [c10CreatedOrder] ∧
    c10CreatedOrder.bp_code = none := by decide

/-- C2: every workflow transition applied to an order whose current status
fails the guard of that transition returns the 400 invalid-transition error
of the guard and produces no store update: the handler returns before any
field write or delete, so the error result carries no new store. -/
theorem c2_invalid_transition_rejects
    (dir : List BusinessPartner) (store : List Order) (oid : Nat) (no : String)
    (notes : String) (uid actor : Nat) (o : Order)
    (hid : getOrderById store oid = some o)
    (hno : getOrderByNo store no = some o) :
    (o.status ≠ "pending" →
      keyUserApprove store oid notes uid =
        Except.error (ApiError.invalidTransition
          "Only pending orders can be approved by key user.") ∧
      keyUserRejectDelete store oid =
        Except.error (ApiError.invalidTransition
          "Only pending orders can be rejected by Key User.")) ∧
    (o.status ≠ "in-process" →
      adminVerify store oid notes uid =
        Except.error (ApiError.invalidTransition
          "Only in-process orders can be verified by admin.") ∧
      adminReject store oid notes uid =
        Except.error (ApiError.invalidTransition
          "Only in-process orders can be rejected by admin.") ∧
      markComplete store no =
        Except.error (ApiError.invalidTransition "Order is not in-process")) ∧
    (o.status ≠ "assigned" →
      ∀ act : CraftsmanAction,
        craftsmanRespond dir store actor no act =
          Except.error (ApiError.invalidTransition
            "Order is already in assigned state")) ∧
    (o.status ≠ "awaiting-approval" →
      approveCompletion store no =
        Except.error (ApiError.invalidTransition
          "Order is not awaiting approval")) := by
  refine ⟨fun h => ⟨?_, ?_⟩, fun h => ⟨?_, ?_, ?_⟩, fun h act => ?_, fun h => ?_⟩
  · simp [keyUserApprove, hid, h]
  · simp [keyUserRejectDelete, hid, h]
  · simp [adminVerify, hid, h]
  · simp [adminReject, hid, h]
  · simp [markComplete, hno, h]
  · cases act <;> simp [craftsmanRespond, hno, h]
  · simp [approveCompletion, hno, h]

/-- Witness for C2 at a concrete order in the terminal status `complete`,
which violates every guard at once. -/
theorem c2_invalid_transition_rejects_witness :
    keyUserApprove [c2TerminalOrder] 1 "" 5 =
      Except.error (ApiError.invalidTransition
        "Only pending orders can be approved by key user.") ∧
    approveCompletion [c2TerminalOrder] "77" =
      Except.error (ApiError.invalidTransition
        "Order is not awaiting approval") :=
  ⟨((c2_invalid_transition_rejects [] [c2TerminalOrder] 1 "77" "" 5 9
      c2TerminalOrder (by decide) (by decide)).1 (by decide)).1,
    (c2_invalid_transition_rejects [] [c2TerminalOrder] 1 "77" "" 5 9
      c2TerminalOrder (by decide) (by decide)).2.2.2 (by decide)⟩

/-- C5 amended: craftsman mark-complete succeeds exactly when the status of
the order is the work-variant `in-process`, setting it to
`awaiting-approval`; any other status (including `assigned`) fails as an
invalid transition. -/
theorem c5_mark_complete_characterization (store : List Order) (no : String)
    (o : Order) (h : getOrderByNo store no = some o) :
    (o.status = "in-process" →
      markComplete store no =
        Except.ok (saveOrder store { o with status := "awaiting-approval" })) ∧
    (o.status ≠ "in-process" →
      markComplete store no =
        Except.error (ApiError.invalidTransition "Order is not in-process")) := by
  constructor <;> intro hs <;> simp [markComplete, h, hs]

/-- Witness for C5 at a concrete in-process order. -/
theorem c5_mark_complete_characterization_witness :
    markComplete [c5WorkOrder] "001" =
      Except.ok (saveOrder [c5WorkOrder]
        { c5WorkOrder with status := "awaiting-approval" }) :=
  (c5_mark_complete_characterization [c5WorkOrder] "001" c5WorkOrder
    (by decide)).1 (by decide)

/-- C6 counterexample: with no prior order the code assigns the literal
string "001" — three digits for the numeric value 1 — and not the two-digit
zero-padded count-plus-one "01" the claim describes for that case. -/
theorem c6_empty_store_is_literal_001 :
    nextOrderNo [] = "001" ∧
    pad2 (List.length ([] : List Order) + 1) = "01" ∧
    ("001" : String) ≠ "01" ∧
    createOrder [] [] 0 c6Input = Except.ok [c6CreatedOrder] ∧
    c6CreatedOrder.order_no = "001" := by decide

/-- C6 amended: the assigned order number is the two-digit-zero-padded
successor of the parsed number of the last order; with no prior order it is
the literal "001" (not the count-based fallback); only when the parse fails
is it the two-digit-zero-padded count plus one. -/
theorem c6_order_no_assignment (store : List Order) :
    (store = [] → nextOrderNo store = "001") ∧
    (∀ last : Order, store.getLast? = some last →
      (∀ n : Nat, parseNat? last.order_no = some n →
        nextOrderNo store = pad2 (n + 1)) ∧
      (parseNat? last.order_no = none →
        nextOrderNo store = pad2 (store.length + 1))) := by
  refine ⟨fun h => by rw [h]; rfl, fun last hl => ⟨fun n hn => ?_, fun hn => ?_⟩⟩ <;>
    simp [nextOrderNo, hl, hn]

/-- Witness for C6 at the empty store. -/
theorem c6_order_no_assignment_witness : nextOrderNo [] = "001" :=
  (c6_order_no_assignment []).1 rfl

/-- C7 counterexample: create, key-user reject-delete, create.  Both creation
operations assign order_no "001": after the delete the store is empty again,
so the later sequential creation re-uses the number of the earlier order
(and the numeric value 1 is not strictly greater than 1). -/
theorem c7_order_no_reused_after_delete :
    createOrder [] [] 0 c7Input = Except.ok [c7FirstOrder] ∧
    c7FirstOrder.order_no = "001" ∧
    keyUserRejectDelete [c7FirstOrder] 1 = Except.ok [] ∧
    createOrder [] [] 0 c7Input = Except.ok [c7FirstOrder] := by decide

/-- C7 amended: over any sequence of creation operations with no interleaved
deletion, starting from an empty store, every assigned order_no parses as a
number, the numeric values strictly increase in creation order, and no two
of the created orders carry the same order_no string.  (The ever-assigned
uniqueness of the original claim fails once a reject-delete intervenes, as
the counterexample shows.) -/
theorem c7_sequential_creations_strictly_increasing
    (dir : List BusinessPartner) (today : Int) (inps : List CreateInput) :
    ((createMany dir today [] inps).all
        (fun o => (parseNat? o.order_no).isSome)) = true ∧
    ((createMany dir today [] inps).map orderNoVal).Pairwise (· < ·) ∧
    ((createMany dir today [] inps).map (fun o => o.order_no)).Pairwise
        (fun a b => a ≠ b) := by
  have hg : GoodStore (createMany dir today [] inps) :=
    goodStore_createMany dir today inps [] ⟨by simp, by simp⟩
  refine ⟨List.all_eq_true.mpr (fun x hx => hg.1 x hx), hg.2, ?_⟩
  have h2 := hg.2
  rw [List.pairwise_map] at h2 ⊢
  refine h2.imp (fun hab heq => ?_)
  simp only [orderNoVal, heq] at hab
  exact Nat.lt_irrefl _ hab

/-- Witness for C7 on a concrete two-creation run. -/
theorem c7_sequential_creations_strictly_increasing_witness :
    ((createMany [] 0 [] [c7Input, c7Input]).map (fun o => o.order_no)).Pairwise
        (fun a b => a ≠ b) :=
  (c7_sequential_creations_strictly_increasing [] 0 [c7Input, c7Input]).2.2

/-- C8: a creation whose due date is on or before today fails with a
serializer ValidationError (no row is inserted, the error result carries no
store), a due date of tomorrow passes the due-date validation, and a
creation request with due date tomorrow (and a null bp_code) succeeds. -/
theorem c8_due_date_validation (dir : List BusinessPartner) (store : List Order)
    (today d : Int) (raw : CreateInput) (hd : raw.due_date = some d) :
    (d ≤ today → isValidationFailure (createOrder dir store today raw) = true) ∧
    checkDueDate today (some (today + 1)) = Except.ok () ∧
    (createOrder dir store today
      { bp_code := some none, due_date := some (today + 1),
        order_date := none }).isOk = true := by
  have hnot : ¬(today + 1 ≤ today) := by omega
  refine ⟨fun hle => ?_, ?_, ?_⟩
  · have hdd : checkDueDate today raw.due_date =
        Except.error (ApiError.validationError
          "Due date must be tomorrow or later. Cannot be today or in the past.") := by
      rw [hd]
      simp [checkDueDate, hle]
    cases hb : raw.bp_code with
    | none =>
      unfold createOrder
      rw [hb]
      simp [resolveBp, Bind.bind, Except.bind, hdd, isValidationFailure]
    | some bc =>
      cases bc with
      | none =>
        unfold createOrder
        rw [hb]
        simp [resolveBp, Bind.bind, Except.bind, hdd, isValidationFailure]
      | some code =>
        unfold createOrder
        rw [hb]
        cases hf : dir.find? (fun b => b.bp_code == code) with
        | some b =>
          simp [resolveBp, hf, Bind.bind, Except.bind, hdd, isValidationFailure]
        | none =>
          simp [resolveBp, hf, Bind.bind, Except.bind, isValidationFailure]
  · simp [checkDueDate, hnot]
  · unfold createOrder
    simp [resolveBp, checkDueDate, hnot, serializerValidate, Bind.bind,
      Except.bind, pure, Except.pure, Except.isOk, Except.toBool]

/-- Witness for C8 at today = 0 with the supplied due date 0. -/
theorem c8_due_date_validation_witness :
    isValidationFailure (createOrder [] [] 0 c8Input) = true ∧
    (createOrder [] [] 0
      { bp_code := some none, due_date := some ((0 : Int) + 1),
        order_date := none }).isOk = true :=
  ⟨(c8_due_date_validation [] [] 0 0 c8Input rfl).1 (by decide),
    (c8_due_date_validation [] [] 0 0 c8Input rfl).2.2⟩

/-- C10 amended: creation fails with a serializer ValidationError exactly
when the bp_code key is absent from the payload; an explicit null passes the
presence check, so creation can succeed without any bp_code reference. -/
theorem c10_bp_code_presence (dir : List BusinessPartner) (store : List Order)
    (today : Int) (raw : CreateInput) :
    (raw.bp_code = none →
      isValidationFailure (createOrder dir store today raw) = true) ∧
    (raw.bp_code = some none →
      checkDueDate today raw.due_date = Except.ok () →
      (createOrder dir store today raw).isOk = true) := by
  constructor
  · intro hb
    unfold createOrder
    rw [hb]
    cases hd : raw.due_date with
    | none =>
      simp [resolveBp, checkDueDate, Bind.bind, Except.bind, serializerValidate,
        throw, throwThe, MonadExceptOf.throw, isValidationFailure]
    | some d =>
      by_cases hle : d ≤ today
      · simp [resolveBp, checkDueDate, hle, Bind.bind, Except.bind,
          isValidationFailure]
      · simp [resolveBp, checkDueDate, hle, Bind.bind, Except.bind,
          serializerValidate, throw, throwThe, MonadExceptOf.throw,
          isValidationFailure]
  · intro hb hdd
    unfold createOrder
    rw [hb, hdd]
    simp [resolveBp, serializerValidate, Bind.bind, Except.bind, pure,
      Except.pure, Except.isOk, Except.toBool]

/-- Witness for C10: an absent bp_code key fails, an explicit null succeeds. -/
theorem c10_bp_code_presence_witness :
    isValidationFailure (createOrder [] [] 0
      { bp_code := none, due_date := none, order_date := none }) = true ∧
    (createOrder [] [] 0 c10Input).isOk = true :=
  ⟨(c10_bp_code_presence [] [] 0
      { bp_code := none, due_date := none, order_date := none }).1 rfl,
    (c10_bp_code_presence [] [] 0 c10Input).2 rfl (by decide)⟩
